import Mathlib

/-!
Verification of the running-analytics repository (src/app.py, src/update_data.py).

The Python code is shallowly embedded:
* pandas timestamps become a `Timestamp` structure holding an epoch day number
  (days since 1970-01-01) and the hour of day; the pandas calendar accessors
  (`dt.month`, `dt.year`, `dt.day_name`, `dt.dayofweek`, `isocalendar().week`)
  are modelled once by executable calendar functions shared by every caller,
  exactly as both Python files share the pandas library;
* float64 arithmetic on distances and paces becomes exact `ℚ` arithmetic
  (the claims only compare values produced by the same formulas, and zero
  tests, which float division preserves);
* a pandas DataFrame becomes a `Frame`: a list of fully populated rows plus a
  record of which derived columns are present in the schema (a column absent
  from a persisted CSV is modelled by its presence flag being false and its
  per-row values reset to a default);
* fallible Python code returns `Except String`; an uncaught exception is an
  `Except.error`.
-/

/-! ### Calendar model (the pandas date accessors used by the source)

`daysFromCivil`/`civilFromDays` are the standard civil-calendar conversions
(Howard Hinnant's algorithms) on epoch day numbers, using floor division and
Euclidean mod to match Python semantics.  `isoWeekOfDay` models
`Series.dt.isocalendar().week`, `weekdayIdx` models `Series.dt.dayofweek`
(0 = Monday, and 1970-01-01 is a Thursday, index 3), `dayName` models
`Series.dt.day_name()`. -/

def daysFromCivil (y m d : ℤ) : ℤ :=
  let y' : ℤ := if m ≤ 2 then y - 1 else y
  let era : ℤ := y' / 400
  let yoe : ℤ := y' - era * 400
  let mp : ℤ := (m + 9) % 12
  let doy : ℤ := (153 * mp + 2) / 5 + d - 1
  let doe : ℤ := yoe * 365 + yoe / 4 - yoe / 100 + doy
  era * 146097 + doe - 719468

def civilFromDays (z : ℤ) : ℤ × ℤ × ℤ :=
  let z' : ℤ := z + 719468
  let era : ℤ := z' / 146097
  let doe : ℤ := z' - era * 146097
  let yoe : ℤ := (doe - doe / 1460 + doe / 36524 - doe / 146096) / 365
  let y : ℤ := yoe + era * 400
  let doy : ℤ := doe - (365 * yoe + yoe / 4 - yoe / 100)
  let mp : ℤ := (5 * doy + 2) / 153
  let d : ℤ := doy - (153 * mp + 2) / 5 + 1
  let m : ℤ := mp + (if mp < 10 then 3 else -9)
  (y + (if m ≤ 2 then 1 else 0), m, d)

def yearOfDay (day : ℤ) : ℤ := (civilFromDays day).1

def monthOfDay (day : ℤ) : ℤ := (civilFromDays day).2.1

/-- pandas `dt.dayofweek`: 0 = Monday .. 6 = Sunday. -/
def weekdayIdx (day : ℤ) : ℤ := (day + 3) % 7

/-- pandas `dt.day_name()`. -/
def dayName (i : ℤ) : String :=
  if i = 0 then "Monday"
  else if i = 1 then "Tuesday"
  else if i = 2 then "Wednesday"
  else if i = 3 then "Thursday"
  else if i = 4 then "Friday"
  else if i = 5 then "Saturday"
  else "Sunday"

/-- ISO weekday, 1 = Monday .. 7 = Sunday. -/
def isoWeekday (day : ℤ) : ℤ := weekdayIdx day + 1

def isoP (y : ℤ) : ℤ := (y + y / 4 - y / 100 + y / 400) % 7

def isoWeeksInYear (y : ℤ) : ℤ :=
  if isoP y = 4 ∨ isoP (y - 1) = 3 then 53 else 52

/-- pandas `isocalendar().week` (ISO 8601 week number). -/
def isoWeekOfDay (day : ℤ) : ℤ :=
  let y : ℤ := yearOfDay day
  let doy : ℤ := day - daysFromCivil y 1 1 + 1
  let w : ℤ := (doy - isoWeekday day + 10) / 7
  if w < 1 then isoWeeksInYear (y - 1)
  else if isoWeeksInYear y < w then 1
  else w

/-- A parsed `start_date_local` timestamp: epoch day number plus hour of day
(the only two components the source ever reads from it). -/
structure Timestamp where
  day : ℤ
  hour : ℕ
deriving DecidableEq

/-! ### Raw records and processed rows -/

/-- One raw activity object from the Strava JSON payload, restricted to the
whitelisted keys of `process_data`.  The spec's data model (§3) makes name,
distance, moving_time, start_date_local, elevation and type required and the
heart-rate/speed fields optional; records in this embedding carry at least
the required keys, so for a non-empty record list every required column is
present in the DataFrame. -/
structure RawRecord where
  name : String
  distance : ℚ
  moving_time : ℚ
  start_date_local : Timestamp
  total_elevation_gain : ℚ
  type : String
  average_heartrate : Option ℚ
  max_heartrate : Option ℚ
  average_speed : Option ℚ
  max_speed : Option ℚ
deriving DecidableEq

/-- A fully populated DataFrame row after `process_data`: the retained raw
columns plus every derived column. -/
structure Row where
  name : String
  distance : ℚ
  moving_time : ℚ
  start_date_local : Timestamp
  total_elevation_gain : ℚ
  type : String
  average_heartrate : Option ℚ
  max_heartrate : Option ℚ
  average_speed : Option ℚ
  max_speed : Option ℚ
  date : ℤ
  hour : ℕ
  weekday : String
  week : ℤ
  month : ℤ
  year : ℤ
  distance_km : ℚ
  moving_time_min : ℚ
  pace : ℚ
  pace_zone : String
  time_of_day : String
deriving DecidableEq

/-- Which derived columns are present in a DataFrame's schema.  A CSV written
by an older schema version may lack some of them. -/
structure DFlags where
  date : Bool
  hour : Bool
  weekday : Bool
  week : Bool
  month : Bool
  year : Bool
  distance_km : Bool
  moving_time_min : Bool
  pace : Bool
  pace_zone : Bool
  time_of_day : Bool
deriving DecidableEq

def DFlags.all : DFlags :=
  ⟨true, true, true, true, true, true, true, true, true, true, true⟩

def DFlags.empty : DFlags :=
  ⟨false, false, false, false, false, false, false, false, false, false, false⟩

/-- A DataFrame: its rows and the derived part of its schema.  Raw columns are
always present (see `RawRecord`). -/
structure Frame where
  rows : List Row
  derived : DFlags
deriving DecidableEq

/-- `pd.DataFrame()` — the empty dataset (no rows, no derived columns). -/
def emptyFrame : Frame := ⟨[], DFlags.empty⟩

/-- The JSON value handed to `process_data`: either a list of activity
records or anything that is not a list (`isinstance(data, list)` fails). -/
inductive ProcessInput where
  | ofList (records : List RawRecord)
  | nonList
deriving DecidableEq

/-! ### `src/app.py` processing pipeline -/

namespace App

/-- src/app.py `classify_pace_zone` (lines 256-267). -/
def classify_pace_zone (pace : ℚ) : String :=
  if pace = 0 then "Unknown"
  else if pace < 4.5 then "🔥 Speed (< 4:30)"
  else if pace < 5.5 then "⚡ Tempo (4:30-5:30)"
  else if pace < 6.5 then "🏃 Easy (5:30-6:30)"
  else "🚶 Recovery (> 6:30)"

/-- src/app.py `classify_time_of_day` (lines 269-276). -/
def classify_time_of_day (hour : ℕ) : String :=
  if 5 ≤ hour ∧ hour < 12 then "🌅 Morning"
  else if 12 ≤ hour ∧ hour < 18 then "☀️ Afternoon"
  else "🌙 Evening"

/-- The per-row body of src/app.py `process_data` (lines 234-252): parse the
timestamp, derive the calendar columns, distance_km, moving_time_min, the
guarded pace, and the two classifications. -/
def mkRow (r : RawRecord) : Row :=
  let sdl := r.start_date_local
  let distance_km : ℚ := r.distance / 1000
  let moving_time_min : ℚ := r.moving_time / 60
  let pace : ℚ := if distance_km > 0 then moving_time_min / distance_km else 0
  { name := r.name
    distance := r.distance
    moving_time := r.moving_time
    start_date_local := sdl
    total_elevation_gain := r.total_elevation_gain
    type := r.type
    average_heartrate := r.average_heartrate
    max_heartrate := r.max_heartrate
    average_speed := r.average_speed
    max_speed := r.max_speed
    date := sdl.day
    hour := sdl.hour
    weekday := dayName (weekdayIdx sdl.day)
    week := isoWeekOfDay sdl.day
    month := monthOfDay sdl.day
    year := yearOfDay sdl.day
    distance_km := distance_km
    moving_time_min := moving_time_min
    pace := pace
    pace_zone := classify_pace_zone pace
    time_of_day := classify_time_of_day sdl.hour }

/-- src/app.py `process_data` (lines 222-254).  A non-list input returns an
empty DataFrame.  A list becomes a DataFrame whose columns are the union of
the records' keys; on the empty list that DataFrame has no columns at all, so
the very first column access `df['start_date_local']` raises `KeyError`. -/
def process_data (input : ProcessInput) : Except String Frame :=
  match input with
  | .nonList => .ok emptyFrame
  | .ofList rs =>
      if rs.isEmpty then .error "KeyError: start_date_local"
      else .ok { rows := rs.map mkRow, derived := DFlags.all }

end App

/-! ### `src/update_data.py` processing pipeline (independent copy) -/

namespace Upd

/-- src/update_data.py `classify_pace_zone` (lines 61-72). -/
def classify_pace_zone (pace : ℚ) : String :=
  if pace = 0 then "Unknown"
  else if pace < 4.5 then "🔥 Speed (< 4:30)"
  else if pace < 5.5 then "⚡ Tempo (4:30-5:30)"
  else if pace < 6.5 then "🏃 Easy (5:30-6:30)"
  else "🚶 Recovery (> 6:30)"

/-- src/update_data.py `classify_time_of_day` (lines 74-81). -/
def classify_time_of_day (hour : ℕ) : String :=
  if 5 ≤ hour ∧ hour < 12 then "🌅 Morning"
  else if 12 ≤ hour ∧ hour < 18 then "☀️ Afternoon"
  else "🌙 Evening"

/-- The per-row body of src/update_data.py `process_data` (lines 95-113). -/
def mkRow (r : RawRecord) : Row :=
  let sdl := r.start_date_local
  let distance_km : ℚ := r.distance / 1000
  let moving_time_min : ℚ := r.moving_time / 60
  let pace : ℚ := if distance_km > 0 then moving_time_min / distance_km else 0
  { name := r.name
    distance := r.distance
    moving_time := r.moving_time
    start_date_local := sdl
    total_elevation_gain := r.total_elevation_gain
    type := r.type
    average_heartrate := r.average_heartrate
    max_heartrate := r.max_heartrate
    average_speed := r.average_speed
    max_speed := r.max_speed
    date := sdl.day
    hour := sdl.hour
    weekday := dayName (weekdayIdx sdl.day)
    week := isoWeekOfDay sdl.day
    month := monthOfDay sdl.day
    year := yearOfDay sdl.day
    distance_km := distance_km
    moving_time_min := moving_time_min
    pace := pace
    pace_zone := classify_pace_zone pace
    time_of_day := classify_time_of_day sdl.hour }

/-- src/update_data.py `process_data` (lines 83-115). -/
def process_data (input : ProcessInput) : Except String Frame :=
  match input with
  | .nonList => .ok emptyFrame
  | .ofList rs =>
      if rs.isEmpty then .error "KeyError: start_date_local"
      else .ok { rows := rs.map mkRow, derived := DFlags.all }

end Upd

/-! ### CacheStore: `df.to_csv` / `load_data` with schema backfill

The CSV round trip is value-preserving for every column the code writes
(timestamps, dates, integers and floats re-parse to the same values), so
`save_csv` is the identity on the frame.  A snapshot written by an older
schema version is modelled by `dropCol`: the column's presence flag is
cleared and its per-row values are reset to a default, since the data is
genuinely absent from the file. -/

/-- Writing the frame to `running_data.csv` (value-preserving, see above). -/
def save_csv (f : Frame) : Frame := f

/-- The derived columns of the persisted schema. -/
inductive DCol where
  | date | hour | weekday | week | month | year
  | distance_km | moving_time_min | pace | pace_zone | time_of_day
deriving DecidableEq

/-- Remove one derived column from a row (its value is gone from the CSV). -/
def eraseField (c : DCol) (r : Row) : Row :=
  match c with
  | .date => { r with date := 0 }
  | .hour => { r with hour := 0 }
  | .weekday => { r with weekday := "" }
  | .week => { r with week := 0 }
  | .month => { r with month := 0 }
  | .year => { r with year := 0 }
  | .distance_km => { r with distance_km := 0 }
  | .moving_time_min => { r with moving_time_min := 0 }
  | .pace => { r with pace := 0 }
  | .pace_zone => { r with pace_zone := "" }
  | .time_of_day => { r with time_of_day := "" }

/-- Clear one derived column's presence flag. -/
def clearFlag (c : DCol) (fl : DFlags) : DFlags :=
  match c with
  | .date => { fl with date := false }
  | .hour => { fl with hour := false }
  | .weekday => { fl with weekday := false }
  | .week => { fl with week := false }
  | .month => { fl with month := false }
  | .year => { fl with year := false }
  | .distance_km => { fl with distance_km := false }
  | .moving_time_min => { fl with moving_time_min := false }
  | .pace => { fl with pace := false }
  | .pace_zone => { fl with pace_zone := false }
  | .time_of_day => { fl with time_of_day := false }

/-- A snapshot written by an older schema that lacks derived column `c`. -/
def dropCol (c : DCol) (f : Frame) : Frame :=
  { rows := f.rows.map (eraseField c), derived := clearFlag c f.derived }

namespace App

/-- The per-row effect of src/app.py `load_data` (lines 328-350): re-parse
`start_date_local`, keep `date` when present (re-parsing it is the identity)
or derive it, then backfill each missing calendar column from the parsed
timestamp, backfill `pace_zone` only when a `pace` column is present, and
backfill `time_of_day` from the `hour` column — which at that point in the
code has already been backfilled, so it is always available. -/
def loadRow (fl : DFlags) (r : Row) : Row :=
  let hour' : ℕ := if fl.hour then r.hour else r.start_date_local.hour
  { r with
    date := if fl.date then r.date else r.start_date_local.day
    hour := hour'
    weekday := if fl.weekday then r.weekday
               else dayName (weekdayIdx r.start_date_local.day)
    week := if fl.week then r.week else isoWeekOfDay r.start_date_local.day
    month := if fl.month then r.month else monthOfDay r.start_date_local.day
    year := if fl.year then r.year else yearOfDay r.start_date_local.day
    pace_zone := if fl.pace_zone then r.pace_zone
                 else if fl.pace then classify_pace_zone r.pace else r.pace_zone
    time_of_day := if fl.time_of_day then r.time_of_day
                   else classify_time_of_day hour' }

/-- src/app.py `load_data` (lines 324-352), CSV-exists branch: read the
snapshot and backfill missing derived columns.  The columns `distance_km`,
`moving_time_min` and `pace` have no backfill branch in the code and keep
whatever presence they had; `pace_zone` becomes present only if it was, or if
`pace` is present; `hour` (hence `time_of_day`) always becomes present. -/
def load_data (snap : Frame) : Frame :=
  let fl := snap.derived
  { rows := snap.rows.map (loadRow fl)
    derived := { fl with
      date := true, hour := true, weekday := true, week := true
      month := true, year := true
      pace_zone := fl.pace_zone || fl.pace
      time_of_day := true } }

end App

/-! Derived-column views: the value list of each derived column, or `none`
when the column is absent from the schema. -/

def colDate (f : Frame) : Option (List ℤ) :=
  if f.derived.date then some (f.rows.map (·.date)) else none

def colHour (f : Frame) : Option (List ℕ) :=
  if f.derived.hour then some (f.rows.map (·.hour)) else none

def colWeekday (f : Frame) : Option (List String) :=
  if f.derived.weekday then some (f.rows.map (·.weekday)) else none

def colWeek (f : Frame) : Option (List ℤ) :=
  if f.derived.week then some (f.rows.map (·.week)) else none

def colMonth (f : Frame) : Option (List ℤ) :=
  if f.derived.month then some (f.rows.map (·.month)) else none

def colYear (f : Frame) : Option (List ℤ) :=
  if f.derived.year then some (f.rows.map (·.year)) else none

def colDistanceKm (f : Frame) : Option (List ℚ) :=
  if f.derived.distance_km then some (f.rows.map (·.distance_km)) else none

def colMovingTimeMin (f : Frame) : Option (List ℚ) :=
  if f.derived.moving_time_min then some (f.rows.map (·.moving_time_min)) else none

def colPace (f : Frame) : Option (List ℚ) :=
  if f.derived.pace then some (f.rows.map (·.pace)) else none

def colPaceZone (f : Frame) : Option (List String) :=
  if f.derived.pace_zone then some (f.rows.map (·.pace_zone)) else none

def colTimeOfDay (f : Frame) : Option (List String) :=
  if f.derived.time_of_day then some (f.rows.map (·.time_of_day)) else none

/-- Two frames have identical derived columns: every derived column is
present in one iff it is present in the other, with the same values. -/
def derivedEq (f g : Frame) : Prop :=
  colDate f = colDate g ∧ colHour f = colHour g ∧ colWeekday f = colWeekday g ∧
  colWeek f = colWeek g ∧ colMonth f = colMonth g ∧ colYear f = colYear g ∧
  colDistanceKm f = colDistanceKm g ∧ colMovingTimeMin f = colMovingTimeMin g ∧
  colPace f = colPace g ∧ colPaceZone f = colPaceZone g ∧
  colTimeOfDay f = colTimeOfDay g

instance (f g : Frame) : Decidable (derivedEq f g) := by
  unfold derivedEq; infer_instance

/-! ### UpdateScheduler: `should_update_data` -/

/-- A `datetime` value at the resolution the scheduler compares: epoch day
number plus seconds within the day (`replace(hour=8, minute=0, second=0,
microsecond=0)` lands exactly on a whole second, so second resolution
suffices for every comparison in the code). -/
structure DT where
  day : ℤ
  tod : ℕ
deriving DecidableEq

/-- Python `datetime` `<`: lexicographic on (date, time of day). -/
def dtLtB (a b : DT) : Bool := a.day < b.day || (a.day == b.day && a.tod < b.tod)

/-- Python `datetime` `<=`. -/
def dtLeB (a b : DT) : Bool := dtLtB a b || (a.day == b.day && a.tod == b.tod)

/-- The strict order on datetimes, as a proposition (for specification). -/
def dtLt (a b : DT) : Prop := a.day < b.day ∨ (a.day = b.day ∧ a.tod < b.tod)

def dtLe (a b : DT) : Prop := dtLt a b ∨ a = b

/-- The persisted `app_config.json` as src/app.py reads it. -/
structure SyncConfig where
  monthly_goal : ℤ
  last_update : Option DT
deriving DecidableEq

/-- src/app.py `should_update_data` (lines 304-322). -/
def should_update_data (config : SyncConfig) (now : DT) : Bool :=
  match config.last_update with
  | none => true
  | some last_update =>
      let today_8am : DT := ⟨now.day, 8 * 3600⟩
      if dtLtB last_update today_8am && dtLeB today_8am now then true
      else if last_update.day < now.day then true
      else false

/-! ### PaginatedFetcher: `fetch_strava_data`

The pagination loop is identical in src/app.py (lines 184-220) and
src/update_data.py (lines 26-59); it is transcribed once.  `requests.get`
either raises (transport failure, connection error, or a body that fails to
parse as JSON) — modelled as `PageResponse.exn` — or delivers a response with
a status code and a parsed JSON body.  The loop never inspects the status
code: it only looks at the body. -/

inductive PageResponse where
  | exn (msg : String)
  | http (status : ℕ) (body : List RawRecord)

/-- One iteration of the `while True` loop, starting at page `page` with
accumulator `acc`.  Returns the outcome (uncaught exception or the
accumulated activity list) and the number of page requests made.  `fuel` is
the termination certificate: along every reachable call `fuel = 101 - page`,
and the loop's own cap `page + 1 > 100` stops before `fuel` runs out, so the
`fuel = 0` branch is unreachable from `fetch_strava_data`. -/
def fetchGoAux (pages : ℕ → PageResponse) :
    ℕ → ℕ → List RawRecord → Except String (List RawRecord) × ℕ
  | 0, _, acc => (.ok acc, 0)
  | fuel + 1, page, acc =>
      match pages page with
      | .exn m => (.error m, 1)
      | .http _ data =>
          if data.isEmpty then (.ok acc, 1)
          else
            let acc2 := acc ++ data
            if data.length < 200 then (.ok acc2, 1)
            else if page + 1 > 100 then (.ok acc2, 1)
            else
              let r := fetchGoAux pages fuel (page + 1) acc2
              (r.1, r.2 + 1)

/-- `fetch_strava_data`: paginate from page 1 with `per_page = 200`. -/
def fetch_strava_data (pages : ℕ → PageResponse) :
    Except String (List RawRecord) × ℕ :=
  fetchGoAux pages 100 1 []

/-- The number of records in a page's JSON body (0 if the request raises). -/
def pageLen (pages : ℕ → PageResponse) (p : ℕ) : ℕ :=
  match pages p with
  | .exn _ => 0
  | .http _ body => body.length

/-! ### `src/update_data.py` `main`: one unattended sync attempt -/

/-- The files the sync writes: the dataset CSV and the JSON config. -/
structure FS where
  csv : Option Frame
  config : Option SyncConfig
deriving DecidableEq

namespace Upd

/-- src/update_data.py `main` (lines 117-165) as a state transformer on the
two persisted files, returning the new file state and the exit status.
`credsPresent` models the three environment variables being set; `tok` the
outcome of `get_access_token` (which checks `raise_for_status`); `pages` the
activity endpoint.  Any exception inside the `try` block exits with status 1
before anything is written; on success the CSV is written first, then the
config with `last_update = now`. -/
def main (credsPresent : Bool) (tok : Except String String)
    (pages : ℕ → PageResponse) (now : DT) (fs : FS) : FS × ℕ :=
  if !credsPresent then (fs, 1)
  else
    match tok with
    | .error _ => (fs, 1)
    | .ok _ =>
        match (fetch_strava_data pages).1 with
        | .error _ => (fs, 1)
        | .ok raw =>
            match process_data (.ofList raw) with
            | .error _ => (fs, 1)
            | .ok df =>
                let cfg := fs.config.getD { monthly_goal := 0, last_update := none }
                ({ csv := some df
                   config := some { cfg with last_update := some now } }, 0)

end Upd

/-! ### Aggregator: longest streak (src/app.py lines 832-844) -/

/-- The loop body of the streak computation: `temp_streak` grows across a
gap of exactly one day, any other gap folds it into `max_streak` and resets
to 1; after the loop `max_streak = max(max_streak, temp_streak)`. -/
def maxStreakGo (prev : ℤ) (rest : List ℤ) (maxS temp : ℕ) : ℕ :=
  match rest with
  | [] => max maxS temp
  | d :: ds =>
      if d - prev = 1 then maxStreakGo d ds maxS (temp + 1)
      else maxStreakGo d ds (max maxS temp) 1

/-- src/app.py lines 832-844: the longest-streak computation over the sorted
list of distinct activity dates.  With no dates the loop never runs and the
final `max(max_streak, temp_streak)` is `max 0 1 = 1`. -/
def longest_streak (dates : List ℤ) : ℕ :=
  match dates with
  | [] => max 0 1
  | d :: ds => maxStreakGo d ds 0 1

/-- The lengths of the maximal runs of consecutive days, as the claim
describes them: a gap of exactly 1 day continues a run, any other gap resets
the run length to 1. -/
def runLengthsGo (prev : ℤ) (rest : List ℤ) (cur : ℕ) : List ℕ :=
  match rest with
  | [] => [cur]
  | d :: ds =>
      if d - prev = 1 then runLengthsGo d ds (cur + 1)
      else cur :: runLengthsGo d ds 1

/-- The claim's streak metric: the maximum number of consecutive calendar
days in the set (0 for the empty set). -/
def spec_longest_streak (dates : List ℤ) : ℕ :=
  match dates with
  | [] => 0
  | d :: ds => (runLengthsGo d ds 1).foldr max 0

/-! ### Aggregator: activity heatmap (src/app.py `create_activity_heatmap`,
lines 401-435)

The function builds a dense daily series over the trailing 365 days and
derives the pivot coordinates.  One cell of that series is a `HeatCell`; the
pivot table plots cell `c` at row `c.wd` (0 = Monday .. 6 = Sunday) and
column `c.week`. -/

structure HeatCell where
  date : ℤ
  km : ℚ
  week : ℕ
  wd : ℕ
deriving DecidableEq

/-- `df.groupby('date')['distance_km'].sum()` for one date, merged left onto
the dense range with `fillna(0)`: the sum of `distance_km` over the rows on
that date, 0 when there are none. -/
def daily_km (f : Frame) (d : ℤ) : ℚ :=
  ((f.rows.filter (fun r => r.date == d)).map (·.distance_km)).sum

/-- The dense daily series of `create_activity_heatmap`: for each of the 365
days from `today - 364` to `today`, the summed distance, the week column
`(date - start_date).days // 7` and the weekday row `dt.dayofweek`. -/
def create_activity_heatmap (today : ℤ) (f : Frame) : List HeatCell :=
  let start_date : ℤ := today - 364
  (List.range 365).map (fun (i : ℕ) =>
    let d : ℤ := start_date + (i : ℤ)
    { date := d
      km := daily_km f d
      week := (d - start_date).toNat / 7
      wd := ((d + 3) % 7).toNat })

deriving instance DecidableEq for Except

/-! ### Concrete data used by witnesses and counterexamples -/

/-- A typical activity: 5 km in 25 minutes at 07:00 on 2024-01-15. -/
def recRun : RawRecord :=
  ⟨"Morning Run", 5000, 1500, ⟨daysFromCivil 2024 1 15, 7⟩, 12, "Run",
   none, none, none, none⟩

/-- `process_data` applied to the singleton list `[recRun]`. -/
def dfRun : Frame := ⟨[App.mkRow recRun], DFlags.all⟩

/-- An activity with positive distance but zero moving time. -/
def recZeroTime : RawRecord :=
  ⟨"Stopped watch", 1000, 0, ⟨daysFromCivil 2024 1 15, 7⟩, 0, "Run",
   none, none, none, none⟩

/-- A record filling a full 200-record page. -/
def recPage : RawRecord :=
  ⟨"r", 5000, 1500, ⟨19738, 9⟩, 10, "Run", none, none, none, none⟩

/-- An endpoint whose page 1 is full and whose page 2 fails with an HTTP 500
whose JSON body is the empty array. -/
def pagesHttpErr : ℕ → PageResponse :=
  fun p => if p = 1 then .http 200 (List.replicate 200 recPage) else .http 500 []

/-- An endpoint whose every request raises a transport error. -/
def pagesBoom : ℕ → PageResponse := fun _ => .exn "ConnectionError"

/-- An endpoint that is already exhausted on page 1. -/
def pagesEmptyOk : ℕ → PageResponse := fun _ => .http 200 []

/-- A previously persisted state: an (empty) dataset CSV and no config. -/
def fsPrev : FS := ⟨some emptyFrame, none⟩

def now0 : DT := ⟨19738, 9 * 3600⟩

/-- The concrete day used by the scheduler examples. -/
def d0 : ℤ := daysFromCivil 2024 5 10

/-- The activity dates 2024-01-01, 01-02, 01-03 and 01-06. -/
def exDates : List ℤ :=
  [daysFromCivil 2024 1 1, daysFromCivil 2024 1 2,
   daysFromCivil 2024 1 3, daysFromCivil 2024 1 6]

/-! ## Helper lemmas -/

theorem derivedEq_refl (f : Frame) : derivedEq f f :=
  ⟨rfl, rfl, rfl, rfl, rfl, rfl, rfl, rfl, rfl, rfl, rfl⟩

theorem dtLtB_iff (a b : DT) : dtLtB a b = true ↔ dtLt a b := by
  simp [dtLtB, dtLt]

theorem dtLeB_iff (a b : DT) : dtLeB a b = true ↔ dtLe a b := by
  simp only [dtLeB, dtLe, Bool.or_eq_true, Bool.and_eq_true, beq_iff_eq,
    decide_eq_true_eq, dtLtB_iff]
  constructor
  · rintro (h | ⟨h1, h2⟩)
    · exact Or.inl h
    · exact Or.inr (by cases a; cases b; simp_all)
  · rintro (h | rfl)
    · exact Or.inl h
    · exact Or.inr ⟨rfl, rfl⟩

theorem maxStreakGo_eq (rest : List ℤ) :
    ∀ prev maxS temp, maxStreakGo prev rest maxS temp =
      max maxS ((runLengthsGo prev rest temp).foldr max 0) := by
  induction rest with
  | nil =>
      intro prev maxS temp
      simp only [maxStreakGo, runLengthsGo, List.foldr_cons, List.foldr_nil]
      omega
  | cons d ds ih =>
      intro prev maxS temp
      simp only [maxStreakGo, runLengthsGo]
      split_ifs with hgap
      · exact ih d maxS (temp + 1)
      · simp only [List.foldr_cons]
        rw [ih d (max maxS temp) 1]
        omega

theorem fetchGoAux_count (pages : ℕ → PageResponse) :
    ∀ (fuel page : ℕ) (acc : List RawRecord),
      (fetchGoAux pages fuel page acc).2 ≤ fuel := by
  intro fuel
  induction fuel with
  | zero =>
      intro page acc
      show (0 : ℕ) ≤ 0
      omega
  | succ n ih =>
      intro page acc
      cases hpg : pages page with
      | exn m =>
          simp only [fetchGoAux, hpg]
          omega
      | http s data =>
          simp only [fetchGoAux, hpg]
          split_ifs with h1 h2 h3
          · show (1 : ℕ) ≤ n + 1; omega
          · show (1 : ℕ) ≤ n + 1; omega
          · show (1 : ℕ) ≤ n + 1; omega
          · have := ih (page + 1) (acc ++ data)
            show (fetchGoAux pages n (page + 1) (acc ++ data)).2 + 1 ≤ n + 1
            omega

theorem fetchGoAux_len (pages : ℕ → PageResponse)
    (hpg : ∀ p, pageLen pages p ≤ 200) :
    ∀ (fuel page : ℕ) (acc l : List RawRecord),
      (fetchGoAux pages fuel page acc).1 = .ok l →
      l.length ≤ acc.length + fuel * 200 := by
  intro fuel
  induction fuel with
  | zero =>
      intro page acc l h
      simp only [fetchGoAux, Except.ok.injEq] at h
      subst h
      simp
  | succ n ih =>
      intro page acc l h
      cases hpg2 : pages page with
      | exn m => simp [fetchGoAux, hpg2] at h
      | http s data =>
          simp only [fetchGoAux, hpg2] at h
          split_ifs at h with h1 h2 h3
          · simp only [Except.ok.injEq] at h
            subst h
            omega
          · simp only [Except.ok.injEq] at h
            subst h
            simp only [List.length_append]
            omega
          · simp only [Except.ok.injEq] at h
            subst h
            have hd : data.length ≤ 200 := by
              have hb := hpg page
              simpa [pageLen, hpg2] using hb
            simp only [List.length_append]
            omega
          · have hd : data.length ≤ 200 := by
              have hb := hpg page
              simpa [pageLen, hpg2] using hb
            have := ih (page + 1) (acc ++ data) l h
            simp only [List.length_append] at this
            omega

theorem fetchGoAux_exn (pages : ℕ → PageResponse) :
    ∀ (fuel page : ℕ) (acc : List RawRecord) (k : ℕ) (m : String),
      page ≤ k → k < page + (fetchGoAux pages fuel page acc).2 →
      pages k = .exn m → (fetchGoAux pages fuel page acc).1 = .error m := by
  intro fuel
  induction fuel with
  | zero =>
      intro page acc k m h1 h2 h3
      exact absurd h2 (by show ¬ k < page + 0; omega)
  | succ n ih =>
      intro page acc k m h1 h2 h3
      cases hpg : pages page with
      | exn m' =>
          simp only [fetchGoAux, hpg] at h2 ⊢
          have hk : k = page := by omega
          rw [hk, hpg] at h3
          simp only [PageResponse.exn.injEq] at h3
          rw [h3]
      | http s data =>
          simp only [fetchGoAux, hpg] at h2 ⊢
          split_ifs at h2 ⊢ with he hshort hcap
          · have hk : k = page := by simp only [] at h2; omega
            rw [hk, hpg] at h3
            exact absurd h3 (by simp)
          · have hk : k = page := by simp only [] at h2; omega
            rw [hk, hpg] at h3
            exact absurd h3 (by simp)
          · have hk : k = page := by simp only [] at h2; omega
            rw [hk, hpg] at h3
            exact absurd h3 (by simp)
          · rcases eq_or_lt_of_le h1 with hk | hk
            · rw [← hk, hpg] at h3
              exact absurd h3 (by simp)
            · have h2' : k < (page + 1) + (fetchGoAux pages n (page + 1) (acc ++ data)).2 := by
                have : k < page + ((fetchGoAux pages n (page + 1) (acc ++ data)).2 + 1) := h2
                omega
              exact ih (page + 1) (acc ++ data) k m hk h2' h3

theorem load_all (l : List Row) :
    App.load_data (save_csv ⟨l, DFlags.all⟩) = ⟨l, DFlags.all⟩ := by
  simp only [save_csv, App.load_data]
  congr 1
  exact List.map_id l

theorem c1_load_drop (rs : List RawRecord) (c : DCol)
    (hc : c ∈ [DCol.date, .hour, .weekday, .week, .month, .year, .pace_zone,
               .time_of_day]) :
    App.load_data (save_csv (dropCol c ⟨rs.map App.mkRow, DFlags.all⟩)) =
      ⟨rs.map App.mkRow, DFlags.all⟩ := by
  fin_cases hc <;> (simp only [save_csv, dropCol, App.load_data, List.map_map]; rfl)

/-! ## Claims -/

/-- C1 (amended): for every raw input on which `process_data` succeeds,
`load_data (save_csv (process_data raw))` has derived columns identical to
those of `process_data raw`; this still holds when the persisted snapshot
omits one of the derived columns date, hour, weekday, week, month, year,
pace_zone or time_of_day, each of which `load_data` recomputes from the
columns that are present (timestamp first, then calendar fields, then
pace_zone from the stored pace and time_of_day from the hour column).  The
`pace` column, by contrast, has no backfill branch in `load_data` — see the
counterexample. -/
theorem c1_backfill_roundtrip (rs : List RawRecord) (df : Frame)
    (h : App.process_data (.ofList rs) = .ok df) :
    derivedEq (App.load_data (save_csv df)) df ∧
    ∀ c ∈ [DCol.date, .hour, .weekday, .week, .month, .year, .pace_zone,
           .time_of_day],
      derivedEq (App.load_data (save_csv (dropCol c df))) df := by
  have hdf : df = ⟨rs.map App.mkRow, DFlags.all⟩ := by
    simp only [App.process_data] at h
    split at h
    · exact absurd h (by simp)
    · simp only [Except.ok.injEq] at h
      exact h.symm
  subst hdf
  constructor
  · rw [load_all]
    exact derivedEq_refl _
  · intro c hc
    rw [c1_load_drop rs c hc]
    exact derivedEq_refl _

/-- C1 witness: the round trip and a backfill of a dropped column on a
concrete processed dataset. -/
theorem c1_witness :
    derivedEq (App.load_data (save_csv dfRun)) dfRun ∧
    derivedEq (App.load_data (save_csv (dropCol .weekday dfRun))) dfRun :=
  ⟨(c1_backfill_roundtrip [recRun] dfRun rfl).1,
   (c1_backfill_roundtrip [recRun] dfRun rfl).2 .weekday (by simp)⟩

/-- C1 counterexample: the claim also lists `pace` among the backfilled
columns, but a snapshot whose `pace` column is missing loads without a
`pace` column, so the loaded derived columns differ from the processed
ones. -/
theorem c1_counterexample :
    App.process_data (.ofList [recRun]) = .ok dfRun ∧
    ¬ derivedEq (App.load_data (save_csv (dropCol .pace dfRun))) dfRun := by
  refine ⟨rfl, fun h => ?_⟩
  have hp := h.2.2.2.2.2.2.2.2.1
  simp [colPace, App.load_data, dropCol, save_csv, dfRun, clearFlag,
    DFlags.all] at hp

/-- C2 (amended): a transport error — an exception raised by the HTTP call
on any page actually requested — aborts the whole fetch with that error, no
partial result is returned, and `main` then exits with status 1 leaving both
persisted files unchanged.  HTTP status errors, by contrast, are not
detected: neither fetch loop checks the response status (no
`raise_for_status`), so an error response's JSON body is consumed as data —
see the counterexample. -/
theorem c2_transport_abort (pages : ℕ → PageResponse) :
    (∀ (k : ℕ) (m : String), 1 ≤ k → k < 1 + (fetch_strava_data pages).2 →
        pages k = .exn m → (fetch_strava_data pages).1 = .error m) ∧
    (∀ (creds : Bool) (tok : Except String String) (now : DT) (fs : FS)
        (e : String), (fetch_strava_data pages).1 = .error e →
        Upd.main creds tok pages now fs = (fs, 1)) := by
  constructor
  · intro k m h1 h2 h3
    exact fetchGoAux_exn pages 100 1 [] k m h1 h2 h3
  · intro creds tok now fs e he
    cases creds
    · rfl
    · cases tok with
      | error e' => rfl
      | ok t => simp [Upd.main, he]

/-- C2 witness: a transport error on the first page aborts the fetch and
leaves the previously persisted files untouched. -/
theorem c2_witness :
    (fetch_strava_data pagesBoom).1 = .error "ConnectionError" ∧
    Upd.main true (.ok "token") pagesBoom now0 fsPrev = (fsPrev, 1) :=
  ⟨(c2_transport_abort pagesBoom).1 1 "ConnectionError" (by decide) (by decide)
     rfl,
   (c2_transport_abort pagesBoom).2 true (.ok "token") now0 fsPrev
     "ConnectionError"
     ((c2_transport_abort pagesBoom).1 1 "ConnectionError" (by decide)
       (by decide) rfl)⟩

set_option maxRecDepth 8000 in
/-- C2 counterexample: page 2 fails with an HTTP 500 whose JSON body is the
empty array.  The fetch does not abort: it returns the 200 records of page 1
as a successful (partial) result, and the sync then persists them, replacing
the previously persisted dataset. -/
theorem c2_counterexample :
    pagesHttpErr 2 = .http 500 [] ∧
    (fetch_strava_data pagesHttpErr).2 = 2 ∧
    (fetch_strava_data pagesHttpErr).1 = .ok (List.replicate 200 recPage) ∧
    (Upd.main true (.ok "token") pagesHttpErr now0 fsPrev).2 = 0 ∧
    (Upd.main true (.ok "token") pagesHttpErr now0 fsPrev).1.csv ≠ fsPrev.csv :=
  ⟨rfl, by decide, by decide, by decide, by decide⟩

/-- C3 (amended): for every record produced by `process_data`,
`distance_km = 0` implies `pace = 0`, and `pace = 0` holds exactly when
`distance_km ≤ 0` or `moving_time_min = 0`; the division is guarded by
`distance_km > 0`, so no division by zero occurs and pace is never
NaN/undefined.  The claim's converse direction `pace = 0 → distance_km = 0`
fails for a record with positive distance and zero moving time — see the
counterexample. -/
theorem c3_pace_zero_characterization (input : ProcessInput) (df : Frame)
    (h : App.process_data input = .ok df) :
    ∀ row ∈ df.rows,
      (row.distance_km = 0 → row.pace = 0) ∧
      (row.pace = 0 ↔ row.distance_km ≤ 0 ∨ row.moving_time_min = 0) := by
  intro row hrow
  cases input with
  | nonList =>
      simp only [App.process_data, Except.ok.injEq] at h
      rw [← h] at hrow
      simp [emptyFrame] at hrow
  | ofList rs =>
      simp only [App.process_data] at h
      split at h
      · exact absurd h (by simp)
      · simp only [Except.ok.injEq] at h
        rw [← h] at hrow
        simp only at hrow
        obtain ⟨rec, hrec, rfl⟩ := List.mem_map.1 hrow
        simp only [App.mkRow]
        split_ifs with hd
        · constructor
          · intro h0
            rw [h0] at hd
            exact absurd hd (lt_irrefl 0)
          · rw [div_eq_zero_iff]
            constructor
            · rintro (hm | hdd)
              · exact Or.inr hm
              · exact absurd hdd (ne_of_gt hd)
            · rintro (hle | hm)
              · exact absurd hd (not_lt.mpr hle)
              · exact Or.inl hm
        · refine ⟨fun _ => rfl, ?_⟩
          constructor
          · intro _
            exact Or.inl (not_lt.mp hd)
          · intro _
            rfl

/-- C3 witness: the characterization evaluated on a concrete processed
record. -/
theorem c3_witness :
    ((App.mkRow recRun).distance_km = 0 → (App.mkRow recRun).pace = 0) ∧
    ((App.mkRow recRun).pace = 0 ↔
      (App.mkRow recRun).distance_km ≤ 0 ∨
      (App.mkRow recRun).moving_time_min = 0) :=
  c3_pace_zero_characterization (.ofList [recRun]) dfRun rfl
    (App.mkRow recRun) (by simp [dfRun])

/-- C3 counterexample: a 1 km activity with `moving_time = 0` is processed
to `distance_km = 1` and `pace = 0`, so `distance_km = 0 ↔ pace = 0`
fails. -/
theorem c3_counterexample :
    ¬ ∀ (input : ProcessInput) (df : Frame), App.process_data input = .ok df →
        ∀ row ∈ df.rows, (row.distance_km = 0 ↔ row.pace = 0) := by
  intro hclaim
  have h := hclaim (.ofList [recZeroTime]) ⟨[App.mkRow recZeroTime], DFlags.all⟩
    rfl (App.mkRow recZeroTime) (by simp)
  have h2 : (App.mkRow recZeroTime).distance_km = 0 :=
    h.mpr (by norm_num [App.mkRow, recZeroTime])
  exact absurd h2 (by norm_num [App.mkRow, recZeroTime])

/-- C4 (amended): `process_data` applied to a non-list input returns the
empty dataset and raises no error; applied to the empty list it raises
`KeyError` instead, because the DataFrame built from an empty list has no
columns and the first column access `df['start_date_local']` fails. -/
theorem c4_empty_and_nonlist :
    App.process_data .nonList = .ok emptyFrame ∧
    App.process_data (.ofList []) = .error "KeyError: start_date_local" :=
  ⟨rfl, rfl⟩

/-- C4 counterexample: on the empty list `process_data` raises an error
rather than returning an empty dataset. -/
theorem c4_counterexample :
    App.process_data (.ofList []) = .error "KeyError: start_date_local" ∧
    ∀ f : Frame, App.process_data (.ofList []) ≠ .ok f := by
  exact ⟨rfl, fun f h => by simp [App.process_data] at h⟩

/-- C5: `should_update_data` returns true exactly when the last-update
timestamp is absent, or `last_update < today_08:00 <= now`, or
`last_update.date() < now.date()`; together with the three concrete examples
of the claim (07:00→09:00 true, 09:00→10:00 false, yesterday 23:00 →
today 00:30 true). -/
theorem c5_should_update_characterization :
    (∀ (g : ℤ) (lu? : Option DT) (now : DT),
        should_update_data ⟨g, lu?⟩ now = true ↔
          lu? = none ∨ ∃ lu, lu? = some lu ∧
            ((dtLt lu ⟨now.day, 8 * 3600⟩ ∧ dtLe ⟨now.day, 8 * 3600⟩ now) ∨
             lu.day < now.day)) ∧
    should_update_data ⟨100, some ⟨d0, 7 * 3600⟩⟩ ⟨d0, 9 * 3600⟩ = true ∧
    should_update_data ⟨100, some ⟨d0, 9 * 3600⟩⟩ ⟨d0, 10 * 3600⟩ = false ∧
    should_update_data ⟨100, some ⟨d0 - 1, 23 * 3600⟩⟩ ⟨d0, 30 * 60⟩ = true := by
  refine ⟨?_, by decide, by decide, by decide⟩
  intro g lu? now
  cases lu? with
  | none => simp [should_update_data]
  | some lu =>
      simp only [should_update_data, Option.some.injEq, reduceCtorEq,
        false_or, exists_eq_left']
      split_ifs with h1 h2
      · simp only [true_iff]
        rw [Bool.and_eq_true, dtLtB_iff, dtLeB_iff] at h1
        exact Or.inl h1
      · simp only [true_iff]
        exact Or.inr h2
      · simp only [false_iff]
        rintro (hlt | hday)
        · exact h1 (by rw [Bool.and_eq_true, dtLtB_iff, dtLeB_iff]; exact hlt)
        · exact h2 hday

/-- C6 (amended): for every nonempty ascending list of distinct activity
dates the computed longest streak equals the maximum run of consecutive
days (gap of exactly 1 continues a run, any other gap resets it to 1), and
the dates {2024-01-01, 01-02, 01-03, 01-06} yield 3; on the empty set,
however, the code reports a streak of 1, not 0 — see the counterexample. -/
theorem c6_longest_streak :
    (∀ dates : List ℤ, dates ≠ [] → dates.Chain' (· < ·) →
        longest_streak dates = spec_longest_streak dates) ∧
    longest_streak exDates = 3 := by
  constructor
  · intro dates hne hs
    cases dates with
    | nil => exact absurd rfl hne
    | cons d ds =>
        simp only [longest_streak, spec_longest_streak]
        rw [maxStreakGo_eq ds d 0 1]
        omega
  · decide

/-- C6 witness: the equality evaluated on the concrete example dates. -/
theorem c6_witness : longest_streak exDates = spec_longest_streak exDates :=
  c6_longest_streak.1 exDates (by decide)
    (by simp only [exDates, List.chain'_cons, List.chain'_singleton, and_true]
        decide)

/-- C6 counterexample: with no activity dates the loop never runs,
`temp_streak` is still 1, and the final `max(max_streak, temp_streak)`
reports a longest streak of 1 where the claim's metric gives 0. -/
theorem c6_counterexample :
    longest_streak [] = 1 ∧ spec_longest_streak [] = 0 ∧
    longest_streak [] ≠ spec_longest_streak [] := by decide

/-- C7: the heatmap's dense series has exactly 365 cells covering exactly
the trailing 365 days ending today; a day in range with no activity rows is
filled with distance 0; each date is mapped to column
`(date - start_date) // 7` and row `dayofweek` with values 0..6
(0 = Monday); and all 7 weekday rows occur. -/
theorem c7_heatmap_grid (today : ℤ) (f : Frame) :
    (create_activity_heatmap today f).length = 365 ∧
    (create_activity_heatmap today f).map (·.date) =
      (List.range 365).map (fun (i : ℕ) => today - 364 + (i : ℤ)) ∧
    (∀ c ∈ create_activity_heatmap today f,
        (∀ r ∈ f.rows, r.date ≠ c.date) → c.km = 0) ∧
    (∀ c ∈ create_activity_heatmap today f,
        c.week = (c.date - (today - 364)).toNat / 7 ∧
        c.wd = ((c.date + 3) % 7).toNat ∧ c.wd < 7) ∧
    (∀ k : ℕ, k < 7 → ∃ c ∈ create_activity_heatmap today f, c.wd = k) := by
  refine ⟨?_, ?_, ?_, ?_, ?_⟩
  · simp only [create_activity_heatmap]
    rw [List.length_map, List.length_range]
  · simp only [create_activity_heatmap, List.map_map]
    rfl
  · intro c hc hno
    simp only [create_activity_heatmap, List.mem_map, List.mem_range] at hc
    obtain ⟨i, hi, rfl⟩ := hc
    simp only [daily_km]
    have hfil : f.rows.filter (fun r => r.date == today - 364 + (i : ℤ)) = [] := by
      rw [List.filter_eq_nil_iff]
      intro r hr
      simpa using hno r hr
    rw [hfil]
    simp
  · intro c hc
    simp only [create_activity_heatmap, List.mem_map, List.mem_range] at hc
    obtain ⟨i, hi, rfl⟩ := hc
    refine ⟨rfl, rfl, ?_⟩
    show ((today - 364 + (i : ℤ) + 3) % 7).toNat < 7
    omega
  · intro k hk
    obtain ⟨j, hj⟩ : ∃ j : ℕ, (j : ℤ) = ((k : ℤ) - (today - 364 + 3)) % 7 :=
      ⟨(((k : ℤ) - (today - 364 + 3)) % 7).toNat, by omega⟩
    refine ⟨_, List.mem_map.2 ⟨j, List.mem_range.2 (by omega), rfl⟩, ?_⟩
    show ((today - 364 + (j : ℤ) + 3) % 7).toNat = k
    omega

/-- C7 witness: the grid size evaluated at a concrete day and dataset. -/
theorem c7_witness : (create_activity_heatmap 19738 emptyFrame).length = 365 :=
  (c7_heatmap_grid 19738 emptyFrame).1

/-- C8: pagination starts at page 1 with 200 records per page, terminates on
an empty page, a short page or the 100-page cap, makes at most 100 page
requests, and when every page body holds at most 200 records the result
holds at most 20000 records. -/
theorem c8_pagination_bounded (pages : ℕ → PageResponse) :
    (fetch_strava_data pages).2 ≤ 100 ∧
    ((∀ p, pageLen pages p ≤ 200) →
      ∀ l, (fetch_strava_data pages).1 = .ok l → l.length ≤ 20000) := by
  constructor
  · exact fetchGoAux_count pages 100 1 []
  · intro hpg l hl
    have := fetchGoAux_len pages hpg 100 1 [] l hl
    simpa using this

/-- C8 witness: the bounds evaluated on an endpoint that is exhausted
immediately. -/
theorem c8_witness :
    (fetch_strava_data pagesEmptyOk).2 ≤ 100 ∧
    ([] : List RawRecord).length ≤ 20000 :=
  ⟨(c8_pagination_bounded pagesEmptyOk).1,
   (c8_pagination_bounded pagesEmptyOk).2
     (fun p => by simp [pageLen, pagesEmptyOk]) [] (by decide)⟩

/-- C9: both classifiers are total functions; every pace ≥ 0 falls in
exactly one pace zone (pace 0 ↦ Unknown, (0, 4.5) ↦ Speed, [4.5, 5.5) ↦
Tempo, [5.5, 6.5) ↦ Easy, [6.5, ∞) ↦ Recovery) and every hour 0–23 falls in
exactly one time-of-day zone ([5, 12) ↦ Morning, [12, 18) ↦ Afternoon,
otherwise Evening). -/
theorem c9_classifiers_total :
    (∀ pace : ℚ, 0 ≤ pace →
        ((App.classify_pace_zone pace = "Unknown" ↔ pace = 0) ∧
         (App.classify_pace_zone pace = "🔥 Speed (< 4:30)" ↔
            0 < pace ∧ pace < 4.5) ∧
         (App.classify_pace_zone pace = "⚡ Tempo (4:30-5:30)" ↔
            4.5 ≤ pace ∧ pace < 5.5) ∧
         (App.classify_pace_zone pace = "🏃 Easy (5:30-6:30)" ↔
            5.5 ≤ pace ∧ pace < 6.5) ∧
         (App.classify_pace_zone pace = "🚶 Recovery (> 6:30)" ↔
            6.5 ≤ pace))) ∧
    (∀ hour : ℕ, hour < 24 →
        ((App.classify_time_of_day hour = "🌅 Morning" ↔
            5 ≤ hour ∧ hour < 12) ∧
         (App.classify_time_of_day hour = "☀️ Afternoon" ↔
            12 ≤ hour ∧ hour < 18) ∧
         (App.classify_time_of_day hour = "🌙 Evening" ↔
            hour < 5 ∨ 18 ≤ hour))) := by
  constructor
  · intro pace hge
    unfold App.classify_pace_zone
    split_ifs with h0 h1 h2 h3 <;>
      refine ⟨?_, ?_, ?_, ?_, ?_⟩ <;>
      constructor <;>
      intro hx <;>
      first
        | rfl
        | exact h0
        | exact absurd hx (by decide)
        | exact absurd hx h0
        | exact ⟨hge.lt_of_ne (Ne.symm h0), h1⟩
        | exact ⟨not_lt.mp h1, h2⟩
        | exact ⟨not_lt.mp h2, h3⟩
        | exact not_lt.mp h3
        | (exfalso; linarith [hx])
  · intro hour hlt
    unfold App.classify_time_of_day
    split_ifs with hA hB <;>
      refine ⟨?_, ?_, ?_⟩ <;>
      constructor <;>
      intro hx <;>
      first
        | rfl
        | exact absurd hx (by decide)
        | omega

/-- C9 witness: the classifiers evaluated at pace 5 min/km and hour 13. -/
theorem c9_witness :
    App.classify_pace_zone 5 = "⚡ Tempo (4:30-5:30)" ∧
    App.classify_time_of_day 13 = "☀️ Afternoon" :=
  ⟨((c9_classifiers_total.1 5 (by norm_num)).2.2.1).mpr (by norm_num),
   ((c9_classifiers_total.2 13 (by norm_num)).2.1).mpr (by norm_num)⟩

/-- C10: the processing implementations of src/app.py and
src/update_data.py — `classify_pace_zone`, `classify_time_of_day` and
`process_data` — are extensionally equal: on every input they produce the
same dataset, with the same rows, the same retained raw columns and the
same derived columns. -/
theorem c10_implementations_agree :
    App.classify_pace_zone = Upd.classify_pace_zone ∧
    App.classify_time_of_day = Upd.classify_time_of_day ∧
    App.process_data = Upd.process_data :=
  ⟨rfl, rfl, rfl⟩
